import Mathlib

/- Shallow embedding of the anondbot update cycle.

   Source: anondbot/anondbot.py and anondbot/twitter.py.
   The embedding covers:
   - title normalization (AnondArticle.title, anondbot.py lines 35-40),
   - trackback detection (AnondArticle.has_trackback, lines 47-60) together
     with the URL test is_anond_article_url (lines 82-86), which relies on
     Python's urllib.parse.urlparse netloc/path split,
   - the status formatter post_twitter (lines 271-293) with Python's
     whitespace collapse, strip and slicing semantics,
   - the per-article loop of check_recent_articles (lines 240-269) with the
     TwitterError taxonomy of twitter.py (lines 57-78).

   HTML parsing (BeautifulSoup) and the network are external collaborators:
   an article carries its extracted body text and the href strings of its
   body hyperlinks as data, and the publish call is an oracle giving the
   outcome of twitter_api.statuses.update. -/

/-- Characters matched by Python's regex class \s (and stripped by str.strip)
on text strings: ASCII whitespace, the C1 separators and the Unicode spaces. -/
def isPySpace (c : Char) : Bool :=
  c == ' ' || c == '\t' || c == '\n' || c == '\r' || c == '\x0b' || c == '\x0c' ||
  c == '\x1c' || c == '\x1d' || c == '\x1e' || c == '\x1f' || c == '\x85' || c == '\xa0' ||
  c == ' ' || c == ' ' || c == ' ' || c == ' ' || c == ' ' ||
  c == ' ' || c == ' ' || c == ' ' || c == ' ' || c == ' ' ||
  c == ' ' || c == ' ' || c == ' ' || c == ' ' || c == ' ' ||
  c == ' ' || c == '　'

/-- Python re.search on a pattern of the form `^X$` (no MULTILINE): the core
match `X` must cover the whole string, except that `$` also matches just
before a single trailing newline. -/
def pySearchAnchored (core : String → Bool) (s : String) : Bool :=
  core s ||
    match s.data.getLast? with
    | some c => c == '\n' && core (String.mk s.data.dropLast)
    | none => false

/-- Core of the title placeholder pattern `(■|\s+)`: the lone glyph, or a
non-empty all-whitespace string. -/
def placeholderCore (s : String) : Bool :=
  s == "■" || (!s.data.isEmpty && s.data.all isPySpace)

/-- `re.search(r'^(■|\s+)$', title)` from AnondArticle.title (line 38). -/
def titleIsPlaceholder (s : String) : Bool :=
  pySearchAnchored placeholderCore s

/-- AnondArticle.title (lines 35-40): a placeholder title is replaced by the
empty string, any other title is returned unchanged. -/
def normalizeTitle (t : String) : String :=
  if titleIsPlaceholder t then "" else t

/-- Core of `anond:\d+` with re.ASCII (line 52): the literal prefix `anond:`
followed by one or more ASCII digits. -/
def anondRefCore (s : String) : Bool :=
  match s.data with
  | 'a' :: 'n' :: 'o' :: 'n' :: 'd' :: ':' :: rest => !rest.isEmpty && rest.all Char.isDigit
  | _ => false

/-- The characters urllib.parse allows inside a URL scheme. -/
def scheme_chars (c : Char) : Bool :=
  c.isAlpha || c.isDigit || c == '+' || c == '-' || c == '.'

/-- Split a character list at the first occurrence of `c`, if any. -/
def splitOnFirst (c : Char) : List Char → Option (List Char × List Char)
  | [] => none
  | x :: xs =>
    if x == c then some ([], xs)
    else (splitOnFirst c xs).map (fun p => (x :: p.1, p.2))

/-- Scheme removal step of urllib.parse.urlsplit: if the text before the
first `:` is a well-formed scheme (leading letter, scheme characters only),
drop it together with the colon; otherwise leave the URL unchanged. -/
def removeScheme (l : List Char) : List Char :=
  match splitOnFirst ':' l with
  | some (before, after) =>
    match before with
    | [] => l
    | c :: cs => if c.isAlpha && (c :: cs).all scheme_chars then after else l
  | none => l

/-- A character that may appear inside a netloc (everything but `/?#`). -/
def netlocChar (c : Char) : Bool :=
  !(c == '/' || c == '?' || c == '#')

/-- Netloc split step of urllib.parse.urlsplit: after a leading `//` the
netloc extends to the first `/?#`; the delimiter stays with the remainder. -/
def splitNetloc (l : List Char) : List Char × List Char :=
  if l.take 2 = ['/', '/'] then
    ((l.drop 2).takeWhile netlocChar, (l.drop 2).dropWhile netlocChar)
  else ([], l)

/-- The (netloc, path) components of urllib.parse.urlparse as used by
is_anond_article_url (line 85): strip the scheme, split the netloc, then
drop the fragment (after `#`) and the query (after `?`) from the path. -/
def urlparseNetlocPath (url : String) : String × String :=
  let l1 := removeScheme url.data
  let nl := splitNetloc l1
  (String.mk nl.1,
   String.mk ((nl.2.takeWhile (fun c => !(c == '#'))).takeWhile (fun c => !(c == '?'))))

/-- Core of the canonical article path pattern `\/[0-9]+` (line 86). -/
def articlePathCore (path : String) : Bool :=
  match path.data with
  | '/' :: rest => !rest.isEmpty && rest.all Char.isDigit
  | _ => false

/-- AnondArticle.is_anond_article_url (lines 82-86): the parsed netloc must
equal anond.hatelabo.jp and the parsed path must match `^\/[0-9]+$`. -/
def is_anond_article_url (url : String) : Bool :=
  (urlparseNetlocPath url).1 == "anond.hatelabo.jp" &&
    pySearchAnchored articlePathCore (urlparseNetlocPath url).2

/-- One feed item as consumed by the cycle: the raw feed title, the item URL,
its publication timestamp (article.datetime.timestamp()), the text extracted
from its HTML content (content.get_text()) and the href strings of the
hyperlinks found in the content (content.find_all('a')). -/
structure AnondArticle where
  rawTitle : String
  url : String
  dt : Int
  bodyText : String
  links : List String
deriving DecidableEq

/-- AnondArticle.title (lines 35-40). -/
def AnondArticle.title (a : AnondArticle) : String := normalizeTitle a.rawTitle

/-- AnondArticle.body (lines 42-45): the extracted text of the content. -/
def AnondArticle.body (a : AnondArticle) : String := a.bodyText

/-- AnondArticle.has_trackback (lines 47-60): true when the normalized title
is a canonical article URL, or matches `^anond:\d+$`, or some hyperlink of
the body is a canonical article URL. -/
def AnondArticle.has_trackback (a : AnondArticle) : Bool :=
  is_anond_article_url a.title ||
    pySearchAnchored anondRefCore a.title ||
    a.links.any is_anond_article_url

/-- Python str.strip(): remove leading and trailing whitespace. -/
def pyStrip (s : String) : String :=
  String.mk (((s.data.dropWhile isPySpace).reverse.dropWhile isPySpace).reverse)

/-- Recursion for collapseWs: replace every maximal run of whitespace by one
space, tracking whether the previous character belonged to a run. -/
def collapseAux : Bool → List Char → List Char
  | _, [] => []
  | prevSpace, c :: rest =>
    if isPySpace c then
      if prevSpace then collapseAux true rest else ' ' :: collapseAux true rest
    else c :: collapseAux false rest

/-- `re.sub(r'\s+', ' ', s)` (line 281). -/
def collapseWs (s : String) : String :=
  String.mk (collapseAux false s.data)

/-- Python slicing s[:k] for an Int bound: a non-negative bound takes a
prefix (clamped at the length); a negative bound counts from the end,
clamping at zero. -/
def pySlice (s : String) (k : Int) : String :=
  if 0 ≤ k then String.mk (s.data.take k.toNat)
  else String.mk (s.data.take ((s.length : Int) + k).toNat)

/-- The body length budget max_body_length as computed by post_twitter
(lines 272-279): the tweet length limit minus the short URL length, minus
len(title)+1 for a non-empty title, minus 3 for a non-empty body. -/
def bodyBudget (tweet_length_limit short_url_length : Nat) (title body : String) : Int :=
  ((tweet_length_limit : Int) - (short_url_length : Int))
    - (if title.length ≠ 0 then (title.length : Int) + 1 else 0)
    - (if body.length ≠ 0 then 3 else 0)

/-- The body text actually placed in the status (lines 278-283): a non-empty
body is stripped and whitespace-collapsed, and truncated to
body[:max_body_length-3] + '...' when longer than the budget. -/
def formattedBody (tweet_length_limit short_url_length : Nat) (title body : String) : String :=
  if body.length ≠ 0 then
    if ((collapseWs (pyStrip body)).length : Int) >
        bodyBudget tweet_length_limit short_url_length title body then
      pySlice (collapseWs (pyStrip body))
        (bodyBudget tweet_length_limit short_url_length title body - 3) ++ "..."
    else collapseWs (pyStrip body)
  else body

/-- The tail of the status (lines 285-287): the url, preceded by the quoted
formatted body when that body is non-empty. -/
def post_body_and_url (tweet_length_limit short_url_length : Nat)
    (title body url : String) : String :=
  if (formattedBody tweet_length_limit short_url_length title body).length ≠ 0 then
    "\"" ++ formattedBody tweet_length_limit short_url_length title body ++ "\" " ++ url
  else url

/-- The status string assembled by post_twitter (lines 285-289):
url, preceded by the quoted body when non-empty, preceded by the title and a
space when non-empty. -/
def post_twitter_status (tweet_length_limit short_url_length : Nat)
    (title body url : String) : String :=
  if title.length ≠ 0 then
    title ++ " " ++ post_body_and_url tweet_length_limit short_url_length title body url
  else post_body_and_url tweet_length_limit short_url_length title body url

/-- Length of a status as the platform counts it: the literal URL at the end
is replaced by the fixed short URL width. -/
def statusEffectiveLength (short_url_length : Nat) (url status : String) : Int :=
  (status.length : Int) - (url.length : Int) + (short_url_length : Int)

/-- Outcome of one twitter_api.statuses.update call as seen by the cycle:
success, a raised TwitterError carrying its numeric code (twitter.py lines
26-29), or a non-TwitterError exception from the transport layer. -/
inductive PublishOutcome
  | success
  | twitterError (code : Nat)
  | transportError
deriving DecidableEq

/-- The closed taxonomy behind TwitterError.from_code (twitter.py 63-70). -/
inductive TwitterErrorKind
  | rateLimit
  | duplicate
  | other
deriving DecidableEq

/-- TwitterError.from_code (twitter.py lines 63-70): code 88 is the rate
limit error, code 187 the duplicate status error, anything else generic. -/
def TwitterError.from_code (code : Nat) : TwitterErrorKind :=
  if code = 88 then .rateLimit
  else if code = 187 then .duplicate
  else .other

/-- Static inputs of one cycle: the tweet length limit and short URL length
(twitter_config), the NG-pattern test on the body (any(re.search(p, body))
over config['ng_patterns']), and the publish oracle. -/
structure DaemonCfg where
  tweet_length_limit : Nat
  short_url_length : Nat
  ngMatch : String → Bool
  publish : String → PublishOutcome

/-- Observable state of the cycle: the in-memory cursor
self.last_article_timestamp, the value of last_article_timestamp stored in
the config file on disk, and event logs: articles examined by the classifier,
statuses passed to statuses.update, and TwitterError codes successfully
logged by the except handler — the handler evaluates e.message, an attribute
TwitterError never defines, so in fact no code is ever appended. -/
structure CycleState where
  lastTs : Int
  persistedTs : Int
  classified : List String
  publishAttempts : List String
  loggedErrors : List Nat
deriving DecidableEq

/-- The status post_twitter builds for an article (line 262 calls
post_twitter(article.title, article.body, article.url)). -/
def postedStatus (cfg : DaemonCfg) (a : AnondArticle) : String :=
  post_twitter_status cfg.tweet_length_limit cfg.short_url_length a.title a.body a.url

/-- One iteration of the loop body of check_recent_articles (lines 244-269).
An article at or before the cursor is skipped without side effects; otherwise
the in-memory cursor advances, the classifier runs, and for a publishable
article the status is posted. Only a successful post reaches the config save
at lines 267-269. A raised TwitterError is caught at line 263, but the
handler at line 264 evaluates e.message, an attribute TwitterError never
defines in Python 3, so the handler itself raises AttributeError before
logging; like a non-TwitterError transport exception, that error escapes the
loop before the save (modeled as Except.error carrying the state at the
moment of the exception). -/
def processArticle (cfg : DaemonCfg) (st : CycleState) (a : AnondArticle) :
    Except CycleState CycleState :=
  if st.lastTs ≥ a.dt then .ok st
  else
    let st1 := { st with lastTs := a.dt, classified := st.classified ++ [a.url] }
    if a.has_trackback then .ok st1
    else if cfg.ngMatch a.body then .ok st1
    else
      let status := postedStatus cfg a
      let st2 := { st1 with publishAttempts := st1.publishAttempts ++ [status] }
      match cfg.publish status with
      | .success => .ok { st2 with persistedTs := st2.lastTs }
      | .twitterError _ => .error st2
      | .transportError => .error st2

/-- The per-article loop of check_recent_articles: items are processed in
order until the list is exhausted or an uncaught exception aborts the loop. -/
def runArticles (cfg : DaemonCfg) : CycleState → List AnondArticle → Except CycleState CycleState
  | st, [] => .ok st
  | st, a :: rest =>
    match processArticle cfg st a with
    | .ok st2 => runArticles cfg st2 rest
    | .error st2 => .error st2

/-- get_anond_articles (lines 181-194): the feed arrives newest first and the
generator yields reversed(items), i.e. oldest first. -/
def get_anond_articles (feedNewestFirst : List AnondArticle) : List AnondArticle :=
  feedNewestFirst.reverse

/-- check_recent_articles (lines 240-269) over a newest-first feed snapshot. -/
def check_recent_articles (cfg : DaemonCfg) (st : CycleState)
    (feedNewestFirst : List AnondArticle) : Except CycleState CycleState :=
  runArticles cfg st (get_anond_articles feedNewestFirst)

/-- The cycle state reached by a run, whether it finished or was aborted. -/
def resState : Except CycleState CycleState → CycleState
  | .ok st => st
  | .error st => st


/-- A daemon configuration with no NG patterns and a publish call that
always succeeds (dry examples for concrete runs). -/
def exCfg : DaemonCfg := ⟨140, 23, fun _ => false, fun _ => .success⟩

/-- A daemon configuration whose publish call raises a non-TwitterError
transport exception. -/
def cfgT : DaemonCfg := ⟨140, 23, fun _ => false, fun _ => .transportError⟩

/-- A daemon configuration whose publish call raises the duplicate status
TwitterError (code 187). -/
def cfgDup : DaemonCfg := ⟨140, 23, fun _ => false, fun _ => .twitterError 187⟩

/- String helper lemmas. -/

lemma length_mk_eq (l : List Char) : (String.mk l).length = l.length := rfl

lemma data_length_eq (s : String) : s.data.length = s.length := rfl

lemma empty_append_str (s : String) : "" ++ s = s := by
  apply String.ext
  rw [String.data_append]
  rfl

lemma pySlice_length_of_le (s : String) (k : Int) (h0 : 0 ≤ k)
    (hk : k ≤ (s.length : Int)) : ((pySlice s k).length : Int) = k := by
  have hd := data_length_eq s
  unfold pySlice
  rw [if_pos h0, length_mk_eq, List.length_take, Nat.min_eq_left (by omega)]
  omega

lemma pySlice_neg_empty (s : String) (k : Int) (hneg : ¬ 0 ≤ k)
    (h : (s.length : Int) + k ≤ 0) : pySlice s k = "" := by
  unfold pySlice
  rw [if_neg hneg]
  have hz : ((s.length : Int) + k).toNat = 0 := by omega
  rw [hz]
  rfl

/- Formatter lemmas. -/

lemma formattedBody_of_empty (L S : Nat) (t b : String) (hb : ¬ b.length ≠ 0) :
    formattedBody L S t b = b := by
  unfold formattedBody
  rw [if_neg hb]

lemma formattedBody_length_le (L S : Nat) (t b : String)
    (h3 : 3 ≤ bodyBudget L S t b) (hb : b.length ≠ 0) :
    ((formattedBody L S t b).length : Int) ≤ bodyBudget L S t b := by
  unfold formattedBody
  rw [if_pos hb]
  by_cases htr : ((collapseWs (pyStrip b)).length : Int) > bodyBudget L S t b
  · rw [if_pos htr, String.length_append]
    have h4 : ((pySlice (collapseWs (pyStrip b)) (bodyBudget L S t b - 3)).length : Int) =
        bodyBudget L S t b - 3 :=
      pySlice_length_of_le _ _ (by omega) (by omega)
    have h5 : ("..." : String).length = 3 := rfl
    push_cast
    omega
  · rw [if_neg htr]
    omega

lemma post_twitter_status_length (L S : Nat) (t b u : String) :
    ((post_twitter_status L S t b u).length : Int) =
      (if t.length ≠ 0 then (t.length : Int) + 1 else 0) +
      (if (formattedBody L S t b).length ≠ 0 then
          ((formattedBody L S t b).length : Int) + 3 else 0) +
      (u.length : Int) := by
  have h1 : ("\"" : String).length = 1 := rfl
  have h2 : ("\" " : String).length = 2 := rfl
  have h3 : (" " : String).length = 1 := rfl
  unfold post_twitter_status post_body_and_url
  by_cases ht : t.length ≠ 0 <;> by_cases hB : (formattedBody L S t b).length ≠ 0
  · simp only [if_pos ht, if_pos hB, String.length_append, h1, h2, h3]
    push_cast
    omega
  · simp only [if_pos ht, if_neg hB, String.length_append, h1, h2, h3]
    push_cast
    omega
  · simp only [if_neg ht, if_pos hB, String.length_append, h1, h2, h3]
    push_cast
    omega
  · simp only [if_neg ht, if_neg hB, String.length_append, h1, h2, h3]
    push_cast
    omega

/-- C3 (amended): whenever the computed body budget is at least 3 — true for
any title short enough to leave room for the ellipsis — the effective length
of the formatted status (the URL counted at the fixed short URL width) never
exceeds the tweet length limit, and a collapsed body longer than its budget
is rendered as exactly budget-3 characters followed by the 3-character
ellipsis marker. -/
theorem c3_format_bounded (L S : Nat) (title body url : String)
    (h3 : 3 ≤ bodyBudget L S title body) :
    statusEffectiveLength S url (post_twitter_status L S title body url) ≤ (L : Int) ∧
    (bodyBudget L S title body < ((collapseWs (pyStrip body)).length : Int) →
      ∃ pre, formattedBody L S title body = pre ++ "..." ∧
        (pre.length : Int) = bodyBudget L S title body - 3) := by
  constructor
  · unfold statusEffectiveLength
    rw [post_twitter_status_length]
    have hbud : bodyBudget L S title body =
        ((L : Int) - (S : Int))
          - (if title.length ≠ 0 then (title.length : Int) + 1 else 0)
          - (if body.length ≠ 0 then 3 else 0) := rfl
    by_cases hb : body.length ≠ 0
    · have hB := formattedBody_length_le L S title body h3 hb
      by_cases ht : title.length ≠ 0 <;> by_cases hF : (formattedBody L S title body).length ≠ 0
      · rw [if_pos ht, if_pos hF]; rw [if_pos ht, if_pos hb] at hbud; omega
      · rw [if_pos ht, if_neg hF]; rw [if_pos ht, if_pos hb] at hbud; omega
      · rw [if_neg ht, if_pos hF]; rw [if_neg ht, if_pos hb] at hbud; omega
      · rw [if_neg ht, if_neg hF]; rw [if_neg ht, if_pos hb] at hbud; omega
    · have hF : ¬ (formattedBody L S title body).length ≠ 0 := by
        rw [formattedBody_of_empty L S title body hb]; exact hb
      by_cases ht : title.length ≠ 0
      · rw [if_pos ht, if_neg hF]; rw [if_pos ht, if_neg hb] at hbud; omega
      · rw [if_neg ht, if_neg hF]; rw [if_neg ht, if_neg hb] at hbud; omega
  · intro hlong
    have hb : body.length ≠ 0 := by
      intro h0
      have hdata : body.data = [] := List.length_eq_zero.mp h0
      have hbody : body = "" := String.ext hdata
      subst hbody
      have hz : ((collapseWs (pyStrip "")).length : Int) = 0 := rfl
      omega
    refine ⟨pySlice (collapseWs (pyStrip body)) (bodyBudget L S title body - 3), ?_, ?_⟩
    · unfold formattedBody
      rw [if_pos hb, if_pos hlong]
    · exact pySlice_length_of_le _ _ (by omega) (by omega)

/-- C3, counterexample to the claim as stated: with tweet limit 12, short
URL length 1, a 12-character title and body "hello world", the computed
budget is negative, Python's negative slice keeps leading body text, and the
effective status length is 23 > 12. -/
theorem c3_counterexample :
    ¬ statusEffectiveLength 1 "uu"
        (post_twitter_status 12 1 "bbbbbbbbbbbb" "hello world" "uu") ≤ (12 : Int) := by
  decide

/-- C3 witness: the spec's own scenario (maxLength 20, short URL length 10,
empty title, body "hello   world") satisfies the amended hypothesis. -/
theorem c3_witness :
    statusEffectiveLength 10 "URL" (post_twitter_status 20 10 "" "hello   world" "URL") ≤ (20 : Int) ∧
    (bodyBudget 20 10 "" "hello   world" < ((collapseWs (pyStrip "hello   world")).length : Int) →
      ∃ pre, formattedBody 20 10 "" "hello   world" = pre ++ "..." ∧
        (pre.length : Int) = bodyBudget 20 10 "" "hello   world" - 3) :=
  c3_format_bounded 20 10 "" "hello   world" "URL" (by decide)

/-- C4 (amended): Python's negative-stop slice counts from the end of the
collapsed body, so with a negative budget the body segment is the ellipsis
alone exactly when the collapsed body has at most 3 - budget characters;
this theorem proves the ellipsis-only behaviour on that domain. -/
theorem c4_negative_budget (L S : Nat) (title body : String)
    (hneg : bodyBudget L S title body < 0) (hb : body.length ≠ 0)
    (hshort : ((collapseWs (pyStrip body)).length : Int) + bodyBudget L S title body ≤ 3) :
    formattedBody L S title body = "..." := by
  unfold formattedBody
  rw [if_pos hb, if_pos (by omega : ((collapseWs (pyStrip body)).length : Int) > bodyBudget L S title body),
    pySlice_neg_empty _ _ (by omega) (by omega), empty_append_str]

/-- C4, counterexample to the claim as stated: with a negative budget (-4)
and body "hello world", the truncation keeps the four leading characters
"hell" before the ellipsis instead of producing the ellipsis alone. -/
theorem c4_counterexample :
    bodyBudget 10 0 "aaaaaaaaaa" "hello world" < 0 ∧
    formattedBody 10 0 "aaaaaaaaaa" "hello world" = "hell..." ∧
    formattedBody 10 0 "aaaaaaaaaa" "hello world" ≠ "..." := by
  refine ⟨by decide, by decide, by decide⟩

/-- C4 witness: a negative budget (-5) with the one-character body "x"
yields the ellipsis-only body segment. -/
theorem c4_witness :
    bodyBudget 0 0 "t" "x" < 0 ∧ formattedBody 0 0 "t" "x" = "..." :=
  ⟨by decide, c4_negative_budget 0 0 "t" "x" (by decide) (by decide) (by decide)⟩

/- Shape lemmas for one iteration of the article loop. -/

lemma processArticle_stale (cfg : DaemonCfg) (st : CycleState) (a : AnondArticle)
    (h : st.lastTs ≥ a.dt) : processArticle cfg st a = .ok st := by
  unfold processArticle
  rw [if_pos h]

lemma processArticle_skip (cfg : DaemonCfg) (st : CycleState) (a : AnondArticle)
    (hfresh : ¬ st.lastTs ≥ a.dt)
    (hskip : a.has_trackback = true ∨ (a.has_trackback = false ∧ cfg.ngMatch a.body = true)) :
    processArticle cfg st a =
      .ok ⟨a.dt, st.persistedTs, st.classified ++ [a.url], st.publishAttempts,
           st.loggedErrors⟩ := by
  unfold processArticle
  rw [if_neg hfresh]
  rcases hskip with h | ⟨h1, h2⟩
  · simp [h]
  · simp [h1, h2]

lemma processArticle_success (cfg : DaemonCfg) (st : CycleState) (a : AnondArticle)
    (hfresh : ¬ st.lastTs ≥ a.dt) (htb : a.has_trackback = false)
    (hng : cfg.ngMatch a.body = false)
    (hp : cfg.publish (postedStatus cfg a) = .success) :
    processArticle cfg st a =
      .ok ⟨a.dt, a.dt, st.classified ++ [a.url],
           st.publishAttempts ++ [postedStatus cfg a], st.loggedErrors⟩ := by
  unfold processArticle
  rw [if_neg hfresh]
  simp [htb, hng, hp]

lemma processArticle_twitterError (cfg : DaemonCfg) (st : CycleState) (a : AnondArticle)
    (c : Nat) (hfresh : ¬ st.lastTs ≥ a.dt) (htb : a.has_trackback = false)
    (hng : cfg.ngMatch a.body = false)
    (hp : cfg.publish (postedStatus cfg a) = .twitterError c) :
    processArticle cfg st a =
      .error ⟨a.dt, st.persistedTs, st.classified ++ [a.url],
              st.publishAttempts ++ [postedStatus cfg a], st.loggedErrors⟩ := by
  unfold processArticle
  rw [if_neg hfresh]
  simp [htb, hng, hp]

lemma processArticle_transport (cfg : DaemonCfg) (st : CycleState) (a : AnondArticle)
    (hfresh : ¬ st.lastTs ≥ a.dt) (htb : a.has_trackback = false)
    (hng : cfg.ngMatch a.body = false)
    (hp : cfg.publish (postedStatus cfg a) = .transportError) :
    processArticle cfg st a =
      .error ⟨a.dt, st.persistedTs, st.classified ++ [a.url],
              st.publishAttempts ++ [postedStatus cfg a], st.loggedErrors⟩ := by
  unfold processArticle
  rw [if_neg hfresh]
  simp [htb, hng, hp]

lemma runArticles_nil (cfg : DaemonCfg) (st : CycleState) :
    runArticles cfg st [] = .ok st := rfl

lemma runArticles_cons_ok (cfg : DaemonCfg) (st st2 : CycleState) (a : AnondArticle)
    (rest : List AnondArticle) (h : processArticle cfg st a = .ok st2) :
    runArticles cfg st (a :: rest) = runArticles cfg st2 rest := by
  simp [runArticles, h]

lemma runArticles_cons_error (cfg : DaemonCfg) (st st2 : CycleState) (a : AnondArticle)
    (rest : List AnondArticle) (h : processArticle cfg st a = .error st2) :
    runArticles cfg st (a :: rest) = .error st2 := by
  simp [runArticles, h]

lemma processArticle_mono (cfg : DaemonCfg) (st : CycleState) (a : AnondArticle)
    (hinv : st.persistedTs ≤ st.lastTs) :
    st.lastTs ≤ (resState (processArticle cfg st a)).lastTs ∧
    st.persistedTs ≤ (resState (processArticle cfg st a)).persistedTs ∧
    (resState (processArticle cfg st a)).persistedTs ≤
      (resState (processArticle cfg st a)).lastTs := by
  by_cases h : st.lastTs ≥ a.dt
  · rw [processArticle_stale cfg st a h]
    exact ⟨le_refl _, le_refl _, hinv⟩
  · have hlt : st.lastTs < a.dt := lt_of_not_ge h
    cases htb : a.has_trackback with
    | true =>
      rw [processArticle_skip cfg st a h (Or.inl htb)]
      simp only [resState]
      omega
    | false =>
      cases hng : cfg.ngMatch a.body with
      | true =>
        rw [processArticle_skip cfg st a h (Or.inr ⟨htb, hng⟩)]
        simp only [resState]
        omega
      | false =>
        cases hp : cfg.publish (postedStatus cfg a) with
        | success =>
          rw [processArticle_success cfg st a h htb hng hp]
          simp only [resState]
          omega
        | twitterError c =>
          rw [processArticle_twitterError cfg st a c h htb hng hp]
          simp only [resState]
          omega
        | transportError =>
          rw [processArticle_transport cfg st a h htb hng hp]
          simp only [resState]
          omega

lemma runArticles_mono (cfg : DaemonCfg) (l : List AnondArticle) :
    ∀ st : CycleState, st.persistedTs ≤ st.lastTs →
      st.lastTs ≤ (resState (runArticles cfg st l)).lastTs ∧
      st.persistedTs ≤ (resState (runArticles cfg st l)).persistedTs ∧
      (resState (runArticles cfg st l)).persistedTs ≤
        (resState (runArticles cfg st l)).lastTs := by
  induction l with
  | nil =>
    intro st h
    rw [runArticles_nil]
    exact ⟨le_refl _, le_refl _, h⟩
  | cons a rest ih =>
    intro st h
    have hstep := processArticle_mono cfg st a h
    cases hpa : processArticle cfg st a with
    | ok st2 =>
      rw [hpa] at hstep
      simp only [resState] at hstep
      rw [runArticles_cons_ok cfg st st2 a rest hpa]
      have htail := ih st2 hstep.2.2
      exact ⟨le_trans hstep.1 htail.1, le_trans hstep.2.1 htail.2.1, htail.2.2⟩
    | error st2 =>
      rw [hpa] at hstep
      simp only [resState] at hstep
      rw [runArticles_cons_error cfg st st2 a rest hpa]
      exact hstep

/-- C7: an article at or before the cursor is skipped with the state
unchanged — hence no classification and no publish attempt for it — and both
the in-memory cursor and the persisted cursor are monotonically
non-decreasing across each loop step and across a whole cycle, given the
daemon invariant that the persisted cursor never exceeds the in-memory one. -/
theorem c7_cursor_monotone (cfg : DaemonCfg) (st : CycleState) (feed : List AnondArticle)
    (hinv : st.persistedTs ≤ st.lastTs) :
    (∀ a : AnondArticle, a.dt ≤ st.lastTs → processArticle cfg st a = .ok st) ∧
    (∀ a : AnondArticle,
      st.lastTs ≤ (resState (processArticle cfg st a)).lastTs ∧
      st.persistedTs ≤ (resState (processArticle cfg st a)).persistedTs) ∧
    st.lastTs ≤ (resState (check_recent_articles cfg st feed)).lastTs ∧
    st.persistedTs ≤ (resState (check_recent_articles cfg st feed)).persistedTs := by
  refine ⟨fun a h => processArticle_stale cfg st a h,
    fun a => ⟨(processArticle_mono cfg st a hinv).1, (processArticle_mono cfg st a hinv).2.1⟩,
    ?_, ?_⟩
  · exact (runArticles_mono cfg (get_anond_articles feed) st hinv).1
  · exact (runArticles_mono cfg (get_anond_articles feed) st hinv).2.1

/-- C7 witness at a concrete state and feed: a stale article is a strict
no-op and the cursor does not decrease over a cycle. -/
theorem c7_witness :
    processArticle exCfg ⟨5, 5, [], [], []⟩ ⟨"t", "u", 3, "b", []⟩ = .ok ⟨5, 5, [], [], []⟩ ∧
    (5 : Int) ≤ (resState (check_recent_articles exCfg ⟨5, 5, [], [], []⟩
                   [⟨"t", "u", 9, "b", []⟩])).lastTs :=
  ⟨(c7_cursor_monotone exCfg ⟨5, 5, [], [], []⟩ [⟨"t", "u", 9, "b", []⟩] (by decide)).1
      ⟨"t", "u", 3, "b", []⟩ (by decide),
   (c7_cursor_monotone exCfg ⟨5, 5, [], [], []⟩ [⟨"t", "u", 9, "b", []⟩] (by decide)).2.2.1⟩

/-- C2, code bug evaluated at the failing input: a fresh publishable article
whose publish call raises the duplicate status TwitterError (code 187,
mapped by TwitterError.from_code) is NOT handled by log-and-continue: the
except handler at anondbot.py line 264 evaluates e.message, an attribute
TwitterError never defines, so the handler raises AttributeError and the
loop aborts before the config save — the cursor advance stays unpersisted
and the next article is never processed, although code 187 is indeed the
duplicate code of the taxonomy. -/
theorem c2_duplicate_aborts_cycle :
    TwitterError.from_code 187 = .duplicate ∧
    runArticles cfgDup ⟨0, 0, [], [], []⟩
        [⟨"t", "u", 1, "b", []⟩, ⟨"t2", "u2", 2, "b2", []⟩] =
      .error ⟨1, 0, ["u"], [postedStatus cfgDup ⟨"t", "u", 1, "b", []⟩], []⟩ :=
  ⟨rfl, rfl⟩

/-- C6: the fetcher reverses the newest-first feed, and over a feed of three
fresh publishable articles with increasing timestamps the cycle attempts the
three publishes oldest first and finishes with both cursors at the newest
timestamp. -/
theorem c6_oldest_first (cfg : DaemonCfg) (st : CycleState) (a1 a2 a3 : AnondArticle)
    (h01 : st.lastTs < a1.dt) (h12 : a1.dt < a2.dt) (h23 : a2.dt < a3.dt)
    (htb1 : a1.has_trackback = false) (htb2 : a2.has_trackback = false)
    (htb3 : a3.has_trackback = false)
    (hng1 : cfg.ngMatch a1.body = false) (hng2 : cfg.ngMatch a2.body = false)
    (hng3 : cfg.ngMatch a3.body = false)
    (hp1 : cfg.publish (postedStatus cfg a1) = .success)
    (hp2 : cfg.publish (postedStatus cfg a2) = .success)
    (hp3 : cfg.publish (postedStatus cfg a3) = .success) :
    get_anond_articles [a3, a2, a1] = [a1, a2, a3] ∧
    check_recent_articles cfg st [a3, a2, a1] =
      .ok ⟨a3.dt, a3.dt, st.classified ++ [a1.url, a2.url, a3.url],
           st.publishAttempts ++
             [postedStatus cfg a1, postedStatus cfg a2, postedStatus cfg a3],
           st.loggedErrors⟩ := by
  have e1 := processArticle_success cfg st a1 (not_le.mpr h01) htb1 hng1 hp1
  have e2 := processArticle_success cfg
      ⟨a1.dt, a1.dt, st.classified ++ [a1.url],
       st.publishAttempts ++ [postedStatus cfg a1], st.loggedErrors⟩
      a2 (not_le.mpr h12) htb2 hng2 hp2
  have e3 := processArticle_success cfg
      ⟨a2.dt, a2.dt, (st.classified ++ [a1.url]) ++ [a2.url],
       (st.publishAttempts ++ [postedStatus cfg a1]) ++ [postedStatus cfg a2],
       st.loggedErrors⟩
      a3 (not_le.mpr h23) htb3 hng3 hp3
  refine ⟨rfl, ?_⟩
  have hrun : check_recent_articles cfg st [a3, a2, a1] =
      .ok ⟨a3.dt, a3.dt, ((st.classified ++ [a1.url]) ++ [a2.url]) ++ [a3.url],
           ((st.publishAttempts ++ [postedStatus cfg a1]) ++ [postedStatus cfg a2]) ++
             [postedStatus cfg a3],
           st.loggedErrors⟩ := by
    show runArticles cfg st [a1, a2, a3] = _
    rw [runArticles_cons_ok cfg st _ a1 _ e1,
        runArticles_cons_ok cfg _ _ a2 _ e2,
        runArticles_cons_ok cfg _ _ a3 _ e3,
        runArticles_nil]
  rw [hrun]
  simp [List.append_assoc]

/-- C6 witness: three concrete articles with timestamps 1 < 2 < 3 delivered
newest first, all publishable, all published oldest first. -/
theorem c6_witness :
    get_anond_articles
        [⟨"t3", "u3", 3, "b3", []⟩, ⟨"t2", "u2", 2, "b2", []⟩, ⟨"t1", "u1", 1, "b1", []⟩] =
      [⟨"t1", "u1", 1, "b1", []⟩, ⟨"t2", "u2", 2, "b2", []⟩, ⟨"t3", "u3", 3, "b3", []⟩] ∧
    check_recent_articles exCfg ⟨0, 0, [], [], []⟩
        [⟨"t3", "u3", 3, "b3", []⟩, ⟨"t2", "u2", 2, "b2", []⟩, ⟨"t1", "u1", 1, "b1", []⟩] =
      .ok ⟨3, 3, ["u1", "u2", "u3"],
           [postedStatus exCfg ⟨"t1", "u1", 1, "b1", []⟩,
            postedStatus exCfg ⟨"t2", "u2", 2, "b2", []⟩,
            postedStatus exCfg ⟨"t3", "u3", 3, "b3", []⟩], []⟩ :=
  c6_oldest_first exCfg ⟨0, 0, [], [], []⟩ _ _ _ (by decide) (by decide) (by decide)
    (by decide) (by decide) (by decide) rfl rfl rfl rfl rfl rfl

/-- C8 (amended): every publish failure aborts the cycle. A raised
TwitterError — whatever its code — does so because the except handler
evaluates the missing e.message attribute and itself raises AttributeError
before the config save; a non-TwitterError transport exception is never
caught at all. In both cases the loop stops (Except.error), the remaining
articles are not processed and the cursor advance for the failed article is
never persisted, so the article is retried from the persisted cursor after
restart. -/
theorem c8_transport_aborts (cfg : DaemonCfg) (st : CycleState) (a : AnondArticle)
    (rest : List AnondArticle) (c : Nat)
    (hfresh : st.lastTs < a.dt) (htb : a.has_trackback = false)
    (hng : cfg.ngMatch a.body = false) :
    (cfg.publish (postedStatus cfg a) = .twitterError c →
      runArticles cfg st (a :: rest) =
        .error ⟨a.dt, st.persistedTs, st.classified ++ [a.url],
          st.publishAttempts ++ [postedStatus cfg a], st.loggedErrors⟩) ∧
    (cfg.publish (postedStatus cfg a) = .transportError →
      runArticles cfg st (a :: rest) =
        .error ⟨a.dt, st.persistedTs, st.classified ++ [a.url],
          st.publishAttempts ++ [postedStatus cfg a], st.loggedErrors⟩) := by
  constructor
  · intro hp
    exact runArticles_cons_error cfg st _ a rest
      (processArticle_twitterError cfg st a c (not_le.mpr hfresh) htb hng hp)
  · intro hp
    exact runArticles_cons_error cfg st _ a rest
      (processArticle_transport cfg st a (not_le.mpr hfresh) htb hng hp)

/-- C8, counterexample to the claim as stated: with a transport-level
publish failure on the older of two fresh articles, the cycle aborts
(Except.error), the second article is never attempted, and the failed
article's cursor advance is not persisted. -/
theorem c8_counterexample :
    check_recent_articles cfgT ⟨0, 0, [], [], []⟩
        [⟨"b", "uB", 2, "bb", []⟩, ⟨"a", "uA", 1, "b", []⟩] =
      .error ⟨1, 0, ["uA"], ["a \"b\" uA"], []⟩ ∧
    (resState (check_recent_articles cfgT ⟨0, 0, [], [], []⟩
        [⟨"b", "uB", 2, "bb", []⟩, ⟨"a", "uA", 1, "b", []⟩])).persistedTs ≠
      AnondArticle.dt ⟨"a", "uA", 1, "b", []⟩ :=
  ⟨rfl, by decide⟩

/-- C8 witness: a single fresh article whose publish raises a transport
error aborts the loop with the state at the moment of the exception. -/
theorem c8_witness :
    runArticles cfgT ⟨0, 0, [], [], []⟩ [⟨"a", "uA", 1, "b", []⟩] =
      .error ⟨1, 0, ["uA"], [postedStatus cfgT ⟨"a", "uA", 1, "b", []⟩], []⟩ :=
  (c8_transport_aborts cfgT ⟨0, 0, [], [], []⟩ ⟨"a", "uA", 1, "b", []⟩ [] 0
    (by decide) (by decide) rfl).2 rfl

/-- C1 (amended): for a fresh article the in-memory cursor always advances,
but the persisted cursor is written only when the publish attempt succeeds.
A classifier skip (trackback or NG pattern) leaves the persisted cursor and
the publish log untouched and continues; any publish failure — a raised
TwitterError, whose except handler crashes on the missing e.message
attribute before the save, or a transport exception — aborts the cycle with
the persisted cursor untouched. -/
theorem c1_persist_on_publish_only (cfg : DaemonCfg) (st : CycleState) (a : AnondArticle)
    (hfresh : st.lastTs < a.dt) :
    (resState (processArticle cfg st a)).lastTs = a.dt ∧
    ((a.has_trackback = true ∨ (a.has_trackback = false ∧ cfg.ngMatch a.body = true)) →
      (resState (processArticle cfg st a)).persistedTs = st.persistedTs ∧
      (resState (processArticle cfg st a)).publishAttempts = st.publishAttempts) ∧
    (a.has_trackback = false → cfg.ngMatch a.body = false →
      cfg.publish (postedStatus cfg a) = .success →
      (resState (processArticle cfg st a)).persistedTs = a.dt) ∧
    (a.has_trackback = false → cfg.ngMatch a.body = false →
      cfg.publish (postedStatus cfg a) ≠ .success →
      processArticle cfg st a =
        .error ⟨a.dt, st.persistedTs, st.classified ++ [a.url],
                st.publishAttempts ++ [postedStatus cfg a], st.loggedErrors⟩) := by
  have hf : ¬ st.lastTs ≥ a.dt := not_le.mpr hfresh
  refine ⟨?_, ?_, ?_, ?_⟩
  · cases htb : a.has_trackback with
    | true => rw [processArticle_skip cfg st a hf (Or.inl htb)]; rfl
    | false =>
      cases hng : cfg.ngMatch a.body with
      | true => rw [processArticle_skip cfg st a hf (Or.inr ⟨htb, hng⟩)]; rfl
      | false =>
        cases hp : cfg.publish (postedStatus cfg a) with
        | success => rw [processArticle_success cfg st a hf htb hng hp]; rfl
        | twitterError c => rw [processArticle_twitterError cfg st a c hf htb hng hp]; rfl
        | transportError => rw [processArticle_transport cfg st a hf htb hng hp]; rfl
  · rintro (htb | ⟨htb, hng⟩)
    · rw [processArticle_skip cfg st a hf (Or.inl htb)]; exact ⟨rfl, rfl⟩
    · rw [processArticle_skip cfg st a hf (Or.inr ⟨htb, hng⟩)]; exact ⟨rfl, rfl⟩
  · intro htb hng hp
    rw [processArticle_success cfg st a hf htb hng hp]
    rfl
  · intro htb hng hns
    cases hp : cfg.publish (postedStatus cfg a) with
    | success => exact absurd hp hns
    | twitterError c => exact processArticle_twitterError cfg st a c hf htb hng hp
    | transportError => exact processArticle_transport cfg st a hf htb hng hp

/-- C1, counterexample to the claim as stated: a fresh trackback article
(title "anond:1", timestamp 5) advances the in-memory cursor to 5 but the
persisted cursor stays at 0, so the persisted value does not equal the
article's timestamp after the item is resolved. -/
theorem c1_counterexample :
    (resState (processArticle exCfg ⟨0, 0, [], [], []⟩ ⟨"anond:1", "u1", 5, "b", []⟩)).lastTs = 5 ∧
    (resState (processArticle exCfg ⟨0, 0, [], [], []⟩ ⟨"anond:1", "u1", 5, "b", []⟩)).persistedTs = 0 ∧
    (0 : Int) ≠ (5 : Int) :=
  ⟨rfl, rfl, by decide⟩

/-- C1 witness: an article whose publish attempt succeeds does get its
timestamp persisted immediately. -/
theorem c1_witness :
    (resState (processArticle exCfg ⟨0, 0, [], [], []⟩ ⟨"t", "u", 5, "b", []⟩)).persistedTs = 5 :=
  (c1_persist_on_publish_only exCfg ⟨0, 0, [], [], []⟩ ⟨"t", "u", 5, "b", []⟩
    (by decide)).2.2.1 (by decide) rfl rfl

/-- C9: a title that is the lone placeholder glyph or consists only of
whitespace normalizes to the empty string, and the formatter then omits the
title segment entirely: the status is either the bare URL or starts with the
opening quote of the body segment. -/
theorem c9_placeholder_title (t : String)
    (h : t = "■" ∨ (t ≠ "" ∧ t.data.all isPySpace = true)) :
    normalizeTitle t = "" ∧
    ∀ (L S : Nat) (b u : String),
      post_twitter_status L S (normalizeTitle t) b u = u ∨
      ∃ r, post_twitter_status L S (normalizeTitle t) b u = "\"" ++ r := by
  have hp : titleIsPlaceholder t = true := by
    rcases h with h | ⟨h1, h2⟩
    · subst h; decide
    · have hne : t.data.isEmpty = false := by
        cases ht : t.data with
        | nil => exact absurd (String.ext ht) h1
        | cons c cs => rfl
      have hcore : placeholderCore t = true := by
        unfold placeholderCore
        rw [hne, h2]
        simp
      unfold titleIsPlaceholder pySearchAnchored
      rw [hcore]
      rfl
  have hnorm : normalizeTitle t = "" := by
    unfold normalizeTitle
    rw [hp]
    rfl
  refine ⟨hnorm, ?_⟩
  intro L S b u
  rw [hnorm]
  unfold post_twitter_status
  rw [if_neg (by simp : ¬ ("" : String).length ≠ 0)]
  unfold post_body_and_url
  by_cases hF : (formattedBody L S "" b).length ≠ 0
  · right
    refine ⟨formattedBody L S "" b ++ ("\" " ++ u), ?_⟩
    rw [if_pos hF, String.append_assoc, String.append_assoc]
  · left
    rw [if_neg hF]

/-- C9 witness: the placeholder glyph title at a concrete formatter input. -/
theorem c9_witness :
    normalizeTitle "■" = "" ∧
    (post_twitter_status 140 23 (normalizeTitle "■") "x" "u" = "u" ∨
     ∃ r, post_twitter_status 140 23 (normalizeTitle "■") "x" "u" = "\"" ++ r) :=
  ⟨(c9_placeholder_title "■" (Or.inl rfl)).1,
   (c9_placeholder_title "■" (Or.inl rfl)).2 140 23 "x" "u"⟩

/-- C5 (amended): trackback detection performs no relative URL resolution —
a candidate title or hyperlink counts only if, parsed as it stands, its
netloc is anond.hatelabo.jp and its path matches the numeric article
pattern; the relative reference "123456" never matches, while the absolute
form of the same article URL does make the article a trackback. -/
theorem c5_no_relative_resolution (a : AnondArticle)
    (h : "http://anond.hatelabo.jp/123456" ∈ a.links) :
    is_anond_article_url "123456" = false ∧
    is_anond_article_url "http://anond.hatelabo.jp/123456" = true ∧
    a.has_trackback = true := by
  refine ⟨by decide, by decide, ?_⟩
  unfold AnondArticle.has_trackback
  have hany : a.links.any is_anond_article_url = true :=
    List.any_eq_true.mpr ⟨_, h, by decide⟩
  rw [hany, Bool.or_true]

/-- C5, counterexample to the claim as stated: the spec's own scenario — an
article at http://anond.hatelabo.jp/987654/ whose body contains a hyperlink
with href "123456" — is NOT classified as a trackback, because the href is
parsed as-is (netloc empty) instead of being resolved against the article
URL. -/
theorem c5_counterexample :
    AnondArticle.has_trackback
        ⟨"tb", "http://anond.hatelabo.jp/987654/", 9, "see 123456", ["123456"]⟩ = false ∧
    is_anond_article_url "123456" = false :=
  ⟨by decide, by decide⟩

/-- C5 witness: an article carrying the absolute article URL as a body link
is classified as a trackback. -/
theorem c5_witness :
    AnondArticle.has_trackback ⟨"t", "u", 1, "b", ["http://anond.hatelabo.jp/123456"]⟩ = true :=
  (c5_no_relative_resolution ⟨"t", "u", 1, "b", ["http://anond.hatelabo.jp/123456"]⟩
    (by decide)).2.2

/- Lemmas for titles of the form anond:digits. -/

lemma removeScheme_anond (l : List Char) :
    removeScheme ('a' :: 'n' :: 'o' :: 'n' :: 'd' :: ':' :: l) = l := rfl

lemma splitNetloc_not_slash (c : Char) (cs : List Char) (hc : ¬ c = '/') :
    splitNetloc (c :: cs) = ([], c :: cs) := by
  unfold splitNetloc
  rw [if_neg ?hne]
  case hne =>
    intro heq
    have h2 : c :: cs.take 1 = ['/', '/'] := heq
    injection h2 with h2a h2b
    exact hc h2a

lemma anondRefCore_append (ds : String) (hne : ds.data ≠ [])
    (hdig : ds.data.all Char.isDigit = true) :
    anondRefCore ("anond:" ++ ds) = true := by
  rcases hd : ds.data with _ | ⟨c, cs⟩
  · exact absurd hd hne
  · have hdata : ("anond:" ++ ds).data = 'a' :: 'n' :: 'o' :: 'n' :: 'd' :: ':' :: (c :: cs) := by
      rw [String.data_append, hd]
      rfl
    unfold anondRefCore
    rw [hdata]
    rw [hd] at hdig
    show (!List.isEmpty (c :: cs) && (c :: cs).all Char.isDigit) = true
    simp [hdig]

lemma is_anond_of_digits (ds : String) (hne : ds.data ≠ [])
    (hdig : ds.data.all Char.isDigit = true) :
    is_anond_article_url ("anond:" ++ ds) = false := by
  rcases hd : ds.data with _ | ⟨c, cs⟩
  · exact absurd hd hne
  · have hdata : ("anond:" ++ ds).data = 'a' :: 'n' :: 'o' :: 'n' :: 'd' :: ':' :: (c :: cs) := by
      rw [String.data_append, hd]
      rfl
    have hc : Char.isDigit c = true := by
      rw [hd, List.all_cons, Bool.and_eq_true] at hdig
      exact hdig.1
    have hcslash : ¬ c = '/' := by
      intro h
      rw [h] at hc
      exact absurd hc (by decide)
    simp only [is_anond_article_url, urlparseNetlocPath]
    rw [hdata, removeScheme_anond, splitNetloc_not_slash c cs hcslash]
    have hfalse : (String.mk ([] : List Char) == "anond.hatelabo.jp") = false := rfl
    simp [hfalse]

/-- C10: an article whose normalized title is anond: followed by one or more
ASCII digits is classified as a trackback and skipped by the cycle without a
publish attempt, even though that title is not itself a URL matching the
canonical article pattern. -/
theorem c10_anond_title_trackback (a : AnondArticle) (ds : String) (cfg : DaemonCfg)
    (st : CycleState) (ht : a.title = "anond:" ++ ds) (hne : ds.data ≠ [])
    (hdig : ds.data.all Char.isDigit = true) (hfresh : st.lastTs < a.dt) :
    a.has_trackback = true ∧
    is_anond_article_url a.title = false ∧
    processArticle cfg st a =
      .ok ⟨a.dt, st.persistedTs, st.classified ++ [a.url], st.publishAttempts,
           st.loggedErrors⟩ := by
  have his : is_anond_article_url a.title = false := by
    rw [ht]
    exact is_anond_of_digits ds hne hdig
  have htb : a.has_trackback = true := by
    have hcore : anondRefCore a.title = true := by
      rw [ht]
      exact anondRefCore_append ds hne hdig
    have hanch : pySearchAnchored anondRefCore a.title = true := by
      unfold pySearchAnchored
      rw [hcore]
      rfl
    simp [AnondArticle.has_trackback, hanch]
  refine ⟨htb, his, ?_⟩
  rw [processArticle_skip cfg st a (not_le.mpr hfresh) (Or.inl htb)]

/-- C10 witness: the title "anond:20230101123456" at a concrete state. -/
theorem c10_witness :
    AnondArticle.has_trackback ⟨"anond:20230101123456", "u", 7, "", []⟩ = true ∧
    is_anond_article_url (AnondArticle.title ⟨"anond:20230101123456", "u", 7, "", []⟩) = false ∧
    processArticle exCfg ⟨0, 0, [], [], []⟩ ⟨"anond:20230101123456", "u", 7, "", []⟩ =
      .ok ⟨7, 0, ["u"], [], []⟩ :=
  c10_anond_title_trackback ⟨"anond:20230101123456", "u", 7, "", []⟩ "20230101123456"
    exCfg ⟨0, 0, [], [], []⟩ (by decide) (by decide) (by decide) (by decide)
